import Mathlib

/-!
Shallow embedding of the AxraPay SDK test harness
(`src/lib/axrapay.ts` and `src/App.tsx` of GoFree-Inc/axrapay-react-example).

The external AxraPay client and `fetch` are modelled as an explicit behaviour
record (`ClientBehavior`): each underlying call either resolves with a value
(`Except.ok`) or throws/rejects with a JavaScript error message
(`Except.error`).  The `AxraPayTester` instance fields become an explicit
`TesterState`; the React `App` state (logs, per-probe result slots, the two
widget containers) becomes an explicit `AppState`.  Every probe also returns
the list of underlying-client invocations it performed, so that claims of the
form "the underlying client is never invoked" are statable.
-/

namespace Axrapay

/-- Severity of a log entry or of a rendered widget outcome
(the TypeScript union `'info' | 'success' | 'error'`). -/
inductive Sev where
  | info
  | success
  | error
deriving DecidableEq

/-- Contiguous-substring test on character lists; the semantics of
JavaScript `String.prototype.includes` restricted to the list of code points. -/
def infixOfB (needle : List Char) : List Char → Bool
  | [] => needle.isEmpty
  | c :: cs => needle.isPrefixOf (c :: cs) || infixOfB needle cs

/-- JavaScript `hay.includes(needle)`. -/
def strIncludes (hay needle : String) : Bool :=
  infixOfB needle.data hay.data

/-- Case-insensitive containment.  This is the spec's wording of the CORS
classification rule ("contains case-insensitive CORS or cross-origin"); the
source's actual check is the case-sensitive `strIncludes`. -/
def ciIncludes (hay needle : String) : Bool :=
  infixOfB (needle.data.map Char.toLower) (hay.data.map Char.toLower)

theorem infixOfB_iff (needle hay : List Char) :
    infixOfB needle hay = true ↔ needle <:+: hay := by
  induction hay with
  | nil =>
    simp [infixOfB, List.isEmpty_iff]
  | cons c cs ih =>
    simp [infixOfB, List.infix_cons_iff, ih, List.isPrefixOf_iff_prefix]

theorem strIncludes_suffix (pre s : String) :
    strIncludes (pre ++ s) s = true := by
  rw [strIncludes, infixOfB_iff, String.data_append]
  exact (List.suffix_append pre.data s.data).isInfix

theorem strIncludes_infix (a s b : String) :
    strIncludes (a ++ s ++ b) s = true := by
  rw [strIncludes, infixOfB_iff, String.data_append, String.data_append]
  exact ⟨a.data, b.data, by simp⟩

/-! ## Data model (src/lib/axrapay.ts interfaces and the client's API shapes) -/

/-- `TestConfig` from src/lib/axrapay.ts. -/
structure TestConfig where
  publishableKey : String
  businessId : String
  sdkToken : String
deriving DecidableEq

/-- The id-bearing object resolved by the client's `createPaymentIntent`. -/
structure IntentResult where
  id : String
deriving DecidableEq

/-- The payment object delivered to a card form's `onSuccess` callback. -/
structure PayResult where
  id : String
deriving DecidableEq

/-- The object delivered to a token form's `onSuccess` callback; `tokenId`
models its `token.id` field. -/
structure TokResult where
  tokenId : String
deriving DecidableEq

/-- The untyped `data` payload carried by a `TestResult`. -/
inductive DataVal where
  | dInitialized
  | dError (msg : String)
  | dIntent (r : IntentResult)
  | dMounted (containerId sdkMethod : String)
  | dStatus (status : Nat)
  | dPay (r : PayResult)
  | dTok (r : TokResult)
deriving DecidableEq

/-- `TestResult` from src/lib/axrapay.ts: the uniform result envelope. -/
structure TestResult where
  success : Bool
  message : String
  data : Option DataVal := none
deriving DecidableEq

/-- The config object passed to `new AxraPay(...)`. -/
structure ClientConfig where
  environment : String
  publishableKey : String
  sdkToken : String
  businessId : String
deriving DecidableEq

/-- Params of the client's `createPaymentIntent` call. -/
structure IntentParams where
  amount : ℚ
  currency : String
  businessId : String
  description : String
deriving DecidableEq

/-- `customerData` passed to `mountCardForm`. -/
structure CustomerData where
  name : String
  email : String
deriving DecidableEq

/-- `customerData` passed to `mountTokenForm` (with its metadata object). -/
structure TokenCustomerData where
  name : String
  email : String
  metadataTest : Bool
  metadataSource : String
deriving DecidableEq

/-- The `style` object passed to `mountCardForm`. -/
structure MountStyle where
  backgroundColor : String
  color : String
  borderRadius : String
  padding : String
  fontSize : String
  fontFamily : String
deriving DecidableEq

/-- Params of `mountCardForm` (the three outcome callbacks are modelled
separately, by `deliverCardOutcome`). -/
structure CardMountParams where
  selector : String
  amount : ℚ
  currency : String
  businessId : String
  customerData : CustomerData
  description : String
  style : MountStyle
deriving DecidableEq

/-- Params of `mountTokenForm` (the callbacks are modelled by
`deliverTokenOutcome`; the style block is commented out in the source). -/
structure TokenMountParams where
  selector : String
  customerData : TokenCustomerData
deriving DecidableEq

/-- The single fetch issued by `testCORS`. -/
structure FetchRequest where
  url : String
  method : String
  publishableKeyHeader : String
  authorizationHeader : String
deriving DecidableEq

/-- What the `testCORS` fetch produced: an HTTP response with a status, or a
rejection before any response carrying an error message. -/
inductive FetchOutcome where
  | response (status : Nat)
  | failure (msg : String)
deriving DecidableEq

/-- `Response.ok` of the fetch API: status in the range 200..299. -/
def responseOk (status : Nat) : Bool :=
  200 ≤ status && status < 300

/-- One record of an invocation of the underlying client. -/
inductive ClientCall where
  | construct (cfg : ClientConfig)
  | createPaymentIntent (p : IntentParams)
  | mountCardForm (p : CardMountParams)
  | mountTokenForm (p : TokenMountParams)
deriving DecidableEq

/-- One fixed behaviour of the external collaborators (the AxraPay client and
`fetch`): each call either resolves with a value or throws/rejects with a
JavaScript error message. -/
structure ClientBehavior where
  construct : ClientConfig → Except String Unit
  createPaymentIntent : IntentParams → Except String IntentResult
  mountCardForm : CardMountParams → Except String Unit
  mountTokenForm : TokenMountParams → Except String Unit
  fetchConfig : FetchRequest → FetchOutcome

/-- The instance fields of class `AxraPayTester`: the owned client handle
(`null` or the config it was constructed with) and the readiness flag. -/
structure TesterState where
  axraPay : Option ClientConfig
  isInitialized : Bool
deriving DecidableEq

/-! ## Widget surfaces (the DOM state the harness reads and writes) -/

/-- A rendered outcome panel: what `showCardFormResult` / `showTokenFormResult`
leave in the result div once they run with a non-null div. -/
structure OutcomePanel where
  sev : Sev
  message : String
  shownData : Option DataVal
deriving DecidableEq

/-- The result div inside a mounted template: still hidden and blank, or
showing an outcome panel. -/
inductive PanelState where
  | blank
  | shown (p : OutcomePanel)
deriving DecidableEq

/-- Contents of a widget container: `empty` when it holds no injected template
(the initial placeholder, or after `innerHTML = ''`), or the injected template,
whose form area may display a mount-failure notice and whose result div holds a
`PanelState`.  `querySelector` for the result div succeeds exactly in the
`template` case. -/
inductive Surface where
  | empty
  | template (formFailure : Option String) (panel : PanelState)
deriving DecidableEq

/-! ## AxraPayTester methods (src/lib/axrapay.ts) -/

/-- The config built inside `initializeSDK` for `new AxraPay(...)`: environment
fixed to development, a falsy (empty) `sdkToken` replaced by the demo
placeholder. -/
def normalizedConfig (config : TestConfig) : ClientConfig :=
  { environment := "development"
    publishableKey := config.publishableKey
    sdkToken := if config.sdkToken = "" then "demo-sdk-token-123" else config.sdkToken
    businessId := config.businessId }

namespace AxraPayTester

/-- `AxraPayTester.initializeSDK`.  Returns the envelope, the updated instance
state, and the underlying-client invocations performed.  The validation throw
is caught by the method's own catch block, which sets `isInitialized = false`
and wraps the message; when the constructor throws, the assignment to
`this.axraPay` does not happen, so the old handle is kept. -/
def initializeSDK (env : ClientBehavior) (config : TestConfig) (s : TesterState) :
    TestResult × TesterState × List ClientCall :=
  if config.publishableKey = "" || config.businessId = "" then
    ({ success := false
       message := "SDK initialization failed: Please provide both publishable key and business ID"
       data := some (.dError "Please provide both publishable key and business ID") },
     { s with isInitialized := false }, [])
  else
    match env.construct (normalizedConfig config) with
    | .error e =>
        ({ success := false
           message := "SDK initialization failed: " ++ e
           data := some (.dError e) },
         { s with isInitialized := false },
         [.construct (normalizedConfig config)])
    | .ok _ =>
        ({ success := true
           message := "SDK initialized successfully! Business config loaded."
           data := some .dInitialized },
         { axraPay := some (normalizedConfig config), isInitialized := true },
         [.construct (normalizedConfig config)])

/-- `AxraPayTester.isSDKInitialized`. -/
def isSDKInitialized (s : TesterState) : Bool :=
  s.isInitialized

/-- Modelled from the spec: a `reset()` operation ("Drops the client handle,
state → Uninitialized. Idempotent.") is specified for the lifecycle manager but
no such method exists anywhere in the repository's source files. -/
def reset (_ : TesterState) : TesterState :=
  { axraPay := none, isInitialized := false }

/-- The fixed params `testPaymentIntent` passes to `createPaymentIntent`. -/
def intentParams (config : TestConfig) : IntentParams :=
  { amount := 29.99
    currency := "USD"
    businessId := config.businessId
    description := "SDK Test Payment" }

/-- `AxraPayTester.testPaymentIntent`. -/
def testPaymentIntent (env : ClientBehavior) (config : TestConfig) (s : TesterState) :
    TestResult × TesterState × List ClientCall :=
  if !s.isInitialized || s.axraPay.isNone then
    ({ success := false, message := "Please initialize the SDK first" }, s, [])
  else
    match env.createPaymentIntent (intentParams config) with
    | .ok r =>
        ({ success := true
           message := "Payment intent created successfully! ID: " ++ r.id
           data := some (.dIntent r) },
         s, [.createPaymentIntent (intentParams config)])
    | .error e =>
        ({ success := false
           message := "Payment intent creation failed: " ++ e
           data := some (.dError e) },
         s, [.createPaymentIntent (intentParams config)])

/-- The params `testCardForm` passes to `mountCardForm` (minus the callbacks). -/
def cardMountParams (config : TestConfig) (containerId : String) : CardMountParams :=
  { selector := "#" ++ containerId ++ " #axrapay-card-form"
    amount := 29.99
    currency := "USD"
    businessId := config.businessId
    customerData := { name := "Test User", email := "test@example.com" }
    description := "Test Payment via AxraPay SDK"
    style :=
      { backgroundColor := "#ffffff"
        color := "#374151"
        borderRadius := "8px"
        padding := "16px"
        fontSize := "14px"
        fontFamily := "Inter, sans-serif" } }

/-- `AxraPayTester.showCardFormResult`: early return when the result div is
null (the template is gone); otherwise apply the severity styling, show the
message, attach the details block only for a success with data, and unhide. -/
def showCardFormResult (surface : Surface) (message : String) (ty : Sev)
    (data : Option DataVal) : Surface :=
  match surface with
  | .empty => .empty
  | .template ff _ =>
      .template ff (.shown
        { sev := ty
          message := message
          shownData := if ty = .success && data.isSome then data else none })

/-- `AxraPayTester.testCardForm`.  `container` is the current contents of
`document.getElementById(containerId)`, `none` when no such element exists.
Returns the envelope, the instance state (unchanged: the method assigns no
field), the container's new contents, and the client invocations. -/
def testCardForm (env : ClientBehavior) (config : TestConfig) (containerId : String)
    (container : Option Surface) (s : TesterState) :
    TestResult × TesterState × Option Surface × List ClientCall :=
  if !s.isInitialized || s.axraPay.isNone then
    ({ success := false, message := "Please initialize the SDK first" }, s, container, [])
  else
    match container with
    | none =>
        ({ success := false
           message := "Card form mounting failed: Container with id '" ++ containerId ++ "' not found"
           data := some (.dError ("Container with id '" ++ containerId ++ "' not found")) },
         s, none, [])
    | some _ =>
        match env.mountCardForm (cardMountParams config containerId) with
        | .ok _ =>
            ({ success := true
               message := "AxraPay card form mounted successfully! Try making a payment."
               data := some (.dMounted containerId "mountCardForm") },
             s, some (.template none .blank),
             [.mountCardForm (cardMountParams config containerId)])
        | .error e =>
            ({ success := false
               message := "Card form mounting failed: " ++ e
               data := some (.dError e) },
             s, some (.template (some e) .blank),
             [.mountCardForm (cardMountParams config containerId)])

/-- The params `testTokenForm` passes to `mountTokenForm`. -/
def tokenMountParams (containerId : String) : TokenMountParams :=
  { selector := "#" ++ containerId ++ " #axrapay-token-form"
    customerData :=
      { name := "Test User"
        email := "test@example.com"
        metadataTest := true
        metadataSource := "sdk-test" } }

/-- `AxraPayTester.showTokenFormResult`: same logic as `showCardFormResult`
against the token result div. -/
def showTokenFormResult (surface : Surface) (message : String) (ty : Sev)
    (data : Option DataVal) : Surface :=
  match surface with
  | .empty => .empty
  | .template ff _ =>
      .template ff (.shown
        { sev := ty
          message := message
          shownData := if ty = .success && data.isSome then data else none })

/-- `AxraPayTester.testTokenForm`.  The source method takes `config` but never
reads it (the token mount params carry no business id). -/
def testTokenForm (env : ClientBehavior) (_config : TestConfig) (containerId : String)
    (container : Option Surface) (s : TesterState) :
    TestResult × TesterState × Option Surface × List ClientCall :=
  if !s.isInitialized || s.axraPay.isNone then
    ({ success := false, message := "Please initialize the SDK first" }, s, container, [])
  else
    match container with
    | none =>
        ({ success := false
           message := "Token form mounting failed: Container with id '" ++ containerId ++ "' not found"
           data := some (.dError ("Container with id '" ++ containerId ++ "' not found")) },
         s, none, [])
    | some _ =>
        match env.mountTokenForm (tokenMountParams containerId) with
        | .ok _ =>
            ({ success := true
               message := "AxraPay token form mounted successfully! Try creating a token."
               data := some (.dMounted containerId "mountTokenForm") },
             s, some (.template none .blank),
             [.mountTokenForm (tokenMountParams containerId)])
        | .error e =>
            ({ success := false
               message := "Token form mounting failed: " ++ e
               data := some (.dError e) },
             s, some (.template (some e) .blank),
             [.mountTokenForm (tokenMountParams containerId)])

/-- The URL `testCORS` fetches. -/
def corsUrl (config : TestConfig) : String :=
  "https://dev.gopremium.africa/api/sdk/config?businessId=" ++ config.businessId

/-- The request `testCORS` issues. -/
def corsRequest (config : TestConfig) : FetchRequest :=
  { url := corsUrl config
    method := "GET"
    publishableKeyHeader := config.publishableKey
    authorizationHeader :=
      "Bearer " ++ (if config.sdkToken = "" then "demo-sdk-token-123" else config.sdkToken) }

/-- `AxraPayTester.testCORS`.  The method reads no instance field and assigns
none, so it takes and returns no `TesterState`. -/
def testCORS (env : ClientBehavior) (config : TestConfig) : TestResult :=
  match env.fetchConfig (corsRequest config) with
  | .response status =>
      if responseOk status then
        { success := true
          message := "CORS test passed! Cross-origin requests are working correctly."
          data := some (.dStatus status) }
      else
        { success := false
          message := "CORS test failed - HTTP error: " ++ toString status
          data := some (.dStatus status) }
  | .failure e =>
      if strIncludes e "CORS" || strIncludes e "cross-origin" then
        { success := false
          message := "CORS test failed - CORS error: " ++ e
          data := some (.dError e) }
      else
        { success := false
          message := "CORS test failed: " ++ e
          data := some (.dError e) }

end AxraPayTester

/-! ## Widget outcome delivery (the callbacks registered at mount time) -/

/-- An interaction outcome of a mounted card form. -/
inductive CardOutcome where
  | onSuccess (r : PayResult)
  | onError (e : String)
  | onCancel
deriving DecidableEq

/-- An interaction outcome of a mounted token form. -/
inductive TokenOutcome where
  | onSuccess (r : TokResult)
  | onError (e : String)
  | onCancel
deriving DecidableEq

/-- What the `onSuccess`/`onError`/`onCancel` closures registered by
`testCardForm` do when the client later invokes one: look up the result div
inside the captured container and render through `showCardFormResult`. -/
def deliverCardOutcome (o : CardOutcome) (surface : Surface) : Surface :=
  match o with
  | .onSuccess r =>
      AxraPayTester.showCardFormResult surface
        ("✅ Payment successful! ID: " ++ r.id) .success (some (.dPay r))
  | .onError e =>
      AxraPayTester.showCardFormResult surface
        ("❌ Payment failed: " ++ e) .error none
  | .onCancel =>
      AxraPayTester.showCardFormResult surface
        "⚠️ Payment cancelled by user" .error none

/-- The analogous closures registered by `testTokenForm`. -/
def deliverTokenOutcome (o : TokenOutcome) (surface : Surface) : Surface :=
  match o with
  | .onSuccess r =>
      AxraPayTester.showTokenFormResult surface
        ("✅ Token created successfully! ID: " ++ r.tokenId) .success (some (.dTok r))
  | .onError e =>
      AxraPayTester.showTokenFormResult surface
        ("❌ Token creation failed: " ++ e) .error none
  | .onCancel =>
      AxraPayTester.showTokenFormResult surface
        "⚠️ Token creation cancelled by user" .error none

/-! ## App layer (src/App.tsx): log bus, result slots, probe wrappers -/

/-- A `LogEntry` of App.tsx ({timestamp, message, type}). -/
structure LogEntry where
  timestamp : String
  message : String
  type : Sev
deriving DecidableEq

/-- The `results` state object of App.tsx: one slot per probe. -/
structure ResultSlots where
  init : Option TestResult
  payment : Option TestResult
  cardForm : Option TestResult
  tokenForm : Option TestResult
  cors : Option TestResult
deriving DecidableEq

/-- The App component's state, together with the tester instance it owns and
the two widget containers rendered in its JSX. -/
structure AppState where
  tester : TesterState
  logs : List LogEntry
  results : ResultSlots
  cardSurface : Surface
  tokenSurface : Surface
deriving DecidableEq

namespace App

/-- `addLog` of App.tsx: append one entry; `now` is the formatted timestamp
taken when the entry is created. -/
def addLog (now message : String) (ty : Sev) (st : AppState) : AppState :=
  { st with logs := st.logs ++ [{ timestamp := now, message := message, type := ty }] }

/-- `clearLogs` of App.tsx. -/
def clearLogs (st : AppState) : AppState :=
  { st with logs := [] }

/-- JavaScript interpolation of `result.data?.id`: the id when the data is the
intent result, the text "undefined" otherwise. -/
def dataIdStr : Option DataVal → String
  | some (.dIntent r) => r.id
  | _ => "undefined"

/-- `testSDKInitialization` of App.tsx: log the start, clear the slot, run the
tester probe, store the envelope, log the resolution.  The tester promise
never rejects, so the wrapper's own catch branch is unreachable. -/
def testSDKInitialization (env : ClientBehavior) (now : String) (config : TestConfig)
    (st : AppState) : AppState :=
  let st1 := addLog now "Starting SDK initialization test..." .info st
  let st2 := { st1 with results := { st1.results with init := none } }
  let out := AxraPayTester.initializeSDK env config st2.tester
  let st3 := { st2 with
    tester := out.2.1
    results := { st2.results with init := some out.1 } }
  if out.1.success then
    addLog now "SDK initialized successfully!" .success st3
  else
    addLog now ("SDK initialization failed: " ++ out.1.message) .error st3

/-- `testPaymentIntent` of App.tsx: an app-level gate rejection stores the
"Please initialize the SDK first" envelope and returns without logging. -/
def testPaymentIntent (env : ClientBehavior) (now : String) (config : TestConfig)
    (st : AppState) : AppState :=
  if !(AxraPayTester.isSDKInitialized st.tester) then
    { st with results := { st.results with
        payment := some { success := false, message := "Please initialize the SDK first" } } }
  else
    let st1 := addLog now "Testing payment intent creation..." .info st
    let st2 := { st1 with results := { st1.results with payment := none } }
    let out := AxraPayTester.testPaymentIntent env config st2.tester
    let st3 := { st2 with
      tester := out.2.1
      results := { st2.results with payment := some out.1 } }
    if out.1.success then
      addLog now ("Payment intent created: " ++ dataIdStr out.1.data) .success st3
    else
      addLog now ("Payment intent creation failed: " ++ out.1.message) .error st3

/-- `testCardForm` of App.tsx, mounting into the `cardFormContainer` div
(always present in the JSX). -/
def testCardForm (env : ClientBehavior) (now : String) (config : TestConfig)
    (st : AppState) : AppState :=
  if !(AxraPayTester.isSDKInitialized st.tester) then
    { st with results := { st.results with
        cardForm := some { success := false, message := "Please initialize the SDK first" } } }
  else
    let st1 := addLog now "Testing card form mounting..." .info st
    let st2 := { st1 with results := { st1.results with cardForm := none } }
    let out := AxraPayTester.testCardForm env config "cardFormContainer"
      (some st2.cardSurface) st2.tester
    let st3 := { st2 with
      tester := out.2.1
      results := { st2.results with cardForm := some out.1 }
      cardSurface := out.2.2.1.getD st2.cardSurface }
    if out.1.success then
      addLog now "Card form mounted successfully!" .success st3
    else
      addLog now ("Card form mounting failed: " ++ out.1.message) .error st3

/-- `testTokenForm` of App.tsx, mounting into the `tokenFormContainer` div. -/
def testTokenForm (env : ClientBehavior) (now : String) (config : TestConfig)
    (st : AppState) : AppState :=
  if !(AxraPayTester.isSDKInitialized st.tester) then
    { st with results := { st.results with
        tokenForm := some { success := false, message := "Please initialize the SDK first" } } }
  else
    let st1 := addLog now "Testing token form mounting..." .info st
    let st2 := { st1 with results := { st1.results with tokenForm := none } }
    let out := AxraPayTester.testTokenForm env config "tokenFormContainer"
      (some st2.tokenSurface) st2.tester
    let st3 := { st2 with
      tester := out.2.1
      results := { st2.results with tokenForm := some out.1 }
      tokenSurface := out.2.2.1.getD st2.tokenSurface }
    if out.1.success then
      addLog now "Token form mounted successfully!" .success st3
    else
      addLog now ("Token form mounting failed: " ++ out.1.message) .error st3

/-- `testCORS` of App.tsx (no gate: the CORS probe is independent). -/
def testCORS (env : ClientBehavior) (now : String) (config : TestConfig)
    (st : AppState) : AppState :=
  let st1 := addLog now "Testing CORS headers..." .info st
  let st2 := { st1 with results := { st1.results with cors := none } }
  let r := AxraPayTester.testCORS env config
  let st3 := { st2 with results := { st2.results with cors := some r } }
  if r.success then
    addLog now "CORS test passed - Cross-origin request successful!" .success st3
  else
    addLog now ("CORS test failed: " ++ r.message) .error st3

/-- The Clear Card Form button: `container.innerHTML = ''` then a log entry. -/
def clearCardForm (now : String) (st : AppState) : AppState :=
  addLog now "Card form cleared" .info { st with cardSurface := .empty }

/-- The Clear Token Form button. -/
def clearTokenForm (now : String) (st : AppState) : AppState :=
  addLog now "Token form cleared" .info { st with tokenSurface := .empty }

/-- Late delivery of a card-widget interaction outcome: the closure registered
at mount time runs against the captured container's current contents.  The
closures call only `showCardFormResult`; they touch neither `logs` nor
`results`. -/
def deliverCardOutcome (o : CardOutcome) (st : AppState) : AppState :=
  { st with cardSurface := Axrapay.deliverCardOutcome o st.cardSurface }

/-- Late delivery of a token-widget interaction outcome. -/
def deliverTokenOutcome (o : TokenOutcome) (st : AppState) : AppState :=
  { st with tokenSurface := Axrapay.deliverTokenOutcome o st.tokenSurface }

end App

/-! ## Lifecycle traces -/

/-- One user-triggered operation against the tester, for lifecycle traces
(`resetOp` is the spec-modelled `reset()`). -/
inductive Op where
  | initOp (config : TestConfig)
  | paymentOp (config : TestConfig)
  | cardOp (config : TestConfig) (containerId : String) (container : Option Surface)
  | tokenOp (config : TestConfig) (containerId : String) (container : Option Surface)
  | corsOp (config : TestConfig)
  | resetOp

/-- The tester-state effect of one operation; `testCORS` reads and assigns no
instance field, so it leaves the state as is. -/
def stepT (env : ClientBehavior) (s : TesterState) : Op → TesterState
  | .initOp c => (AxraPayTester.initializeSDK env c s).2.1
  | .paymentOp c => (AxraPayTester.testPaymentIntent env c s).2.1
  | .cardOp c cid surf => (AxraPayTester.testCardForm env c cid surf s).2.1
  | .tokenOp c cid surf => (AxraPayTester.testTokenForm env c cid surf s).2.1
  | .corsOp _ => s
  | .resetOp => AxraPayTester.reset s

/-- Run a sequence of operations against the tester. -/
def runOps (env : ClientBehavior) (s : TesterState) (ops : List Op) : TesterState :=
  ops.foldl (stepT env) s

/-- Whether `initializeSDK` would succeed; this depends only on the config and
on the constructor's behaviour, never on the prior state. -/
def initOk (env : ClientBehavior) (c : TestConfig) : Bool :=
  !(c.publishableKey = "" || c.businessId = "") &&
    (match env.construct (normalizedConfig c) with
     | .ok _ => true
     | .error _ => false)

/-- Operations that cannot revoke readiness: everything except `reset()` and a
failing `initializeSDK`. -/
def keepsReady (env : ClientBehavior) : Op → Bool
  | .initOp c => initOk env c
  | .resetOp => false
  | _ => true

/-! ## Concrete fixtures -/

/-- A behaviour where every underlying call resolves. -/
def envAll : ClientBehavior :=
  { construct := fun _ => .ok ()
    createPaymentIntent := fun _ => .ok { id := "pi_demo_1" }
    mountCardForm := fun _ => .ok ()
    mountTokenForm := fun _ => .ok ()
    fetchConfig := fun _ => .response 200 }

/-- A behaviour where every underlying call throws or rejects. -/
def envErr : ClientBehavior :=
  { construct := fun _ => .error "construct blew up"
    createPaymentIntent := fun _ => .error "intent blew up"
    mountCardForm := fun _ => .error "card mount blew up"
    mountTokenForm := fun _ => .error "token mount blew up"
    fetchConfig := fun _ => .failure "Failed to fetch" }

/-- A behaviour whose fetch is blocked with a mixed-case cross-origin text. -/
def envBlocked : ClientBehavior :=
  { envAll with fetchConfig := fun _ => .failure "Cross-Origin request blocked" }

/-- A behaviour whose fetch receives a 403 response. -/
def envForbidden : ClientBehavior :=
  { envAll with fetchConfig := fun _ => .response 403 }

/-- The demo config prefilled by App.tsx. -/
def cfgGood : TestConfig :=
  { publishableKey := "pk_test_demo_key"
    businessId := "demo-business-123"
    sdkToken := "" }

/-- A config with the publishable key left empty. -/
def cfgBad : TestConfig :=
  { publishableKey := ""
    businessId := "demo-business-123"
    sdkToken := "" }

/-- The tester's initial fields (`axraPay = null`, `isInitialized = false`). -/
def s0 : TesterState :=
  { axraPay := none, isInitialized := false }

/-- A ready tester state, as left by a successful `initializeSDK cfgGood`. -/
def sReady : TesterState :=
  { axraPay := some (normalizedConfig cfgGood), isInitialized := true }

/-- All result slots empty. -/
def slots0 : ResultSlots :=
  { init := none, payment := none, cardForm := none, tokenForm := none, cors := none }

/-- The App's initial state. -/
def app0 : AppState :=
  { tester := s0, logs := [], results := slots0
    cardSurface := .empty, tokenSurface := .empty }

/-- An app state with a ready tester and freshly mounted card and token
templates. -/
def appMounted : AppState :=
  { tester := sReady, logs := [], results := slots0
    cardSurface := .template none .blank, tokenSurface := .template none .blank }

/-- An app state whose card and token containers were cleared while the tester
is still ready. -/
def appCleared : AppState :=
  { tester := sReady, logs := [], results := slots0
    cardSurface := .empty, tokenSurface := .empty }

/-! ## Claims -/

/-- C1: for every dependent probe (testPaymentIntent, testCardForm,
testTokenForm), if the SDK is not initialized (`isSDKInitialized()` false),
the probe returns the envelope {success:false, message:"Please initialize the
SDK first"} and invokes no method of the underlying client. -/
theorem C1_gate_short_circuits (env : ClientBehavior) (cfg : TestConfig)
    (cid : String) (container : Option Surface) (s : TesterState)
    (h : AxraPayTester.isSDKInitialized s = false) :
    ((AxraPayTester.testPaymentIntent env cfg s).1 =
        { success := false, message := "Please initialize the SDK first", data := none } ∧
      (AxraPayTester.testPaymentIntent env cfg s).2.2 = []) ∧
    ((AxraPayTester.testCardForm env cfg cid container s).1 =
        { success := false, message := "Please initialize the SDK first", data := none } ∧
      (AxraPayTester.testCardForm env cfg cid container s).2.2.2 = []) ∧
    ((AxraPayTester.testTokenForm env cfg cid container s).1 =
        { success := false, message := "Please initialize the SDK first", data := none } ∧
      (AxraPayTester.testTokenForm env cfg cid container s).2.2.2 = []) := by
  have hb : s.isInitialized = false := h
  simp [AxraPayTester.testPaymentIntent, AxraPayTester.testCardForm,
    AxraPayTester.testTokenForm, hb]

/-- Witness for C1 at the tester's initial state. -/
theorem C1_gate_short_circuits_witness :
    AxraPayTester.isSDKInitialized s0 = false ∧
    (AxraPayTester.testPaymentIntent envAll cfgGood s0).1 =
      { success := false, message := "Please initialize the SDK first", data := none } :=
  ⟨rfl, (C1_gate_short_circuits envAll cfgGood "cardFormContainer" none s0 rfl).1.1⟩

/-- C2: when `publishableKey` or `businessId` is empty, `initializeSDK` returns
a success:false envelope whose message mentions the publishable key, never
constructs the underlying client, and leaves `isSDKInitialized()` false. -/
theorem C2_missing_credentials (env : ClientBehavior) (cfg : TestConfig) (s : TesterState)
    (h : cfg.publishableKey = "" ∨ cfg.businessId = "") :
    (AxraPayTester.initializeSDK env cfg s).1.success = false ∧
    strIncludes (AxraPayTester.initializeSDK env cfg s).1.message "publishable key" = true ∧
    (AxraPayTester.initializeSDK env cfg s).2.2 = [] ∧
    AxraPayTester.isSDKInitialized (AxraPayTester.initializeSDK env cfg s).2.1 = false := by
  have hc : (cfg.publishableKey = "" || cfg.businessId = "") = true := by
    rcases h with h | h <;> simp [h]
  have hr : AxraPayTester.initializeSDK env cfg s =
      ({ success := false
         message := "SDK initialization failed: Please provide both publishable key and business ID"
         data := some (.dError "Please provide both publishable key and business ID") },
       { s with isInitialized := false }, []) := by
    unfold AxraPayTester.initializeSDK
    rw [if_pos hc]
  rw [hr]
  refine ⟨rfl, ?_, rfl, rfl⟩
  show strIncludes
    "SDK initialization failed: Please provide both publishable key and business ID"
    "publishable key" = true
  decide

/-- Witness for C2: the empty publishable key. -/
theorem C2_missing_credentials_witness :
    cfgBad.publishableKey = "" ∧
    (AxraPayTester.initializeSDK envAll cfgBad s0).1.success = false ∧
    strIncludes (AxraPayTester.initializeSDK envAll cfgBad s0).1.message "publishable key" = true :=
  ⟨rfl, (C2_missing_credentials envAll cfgBad s0 (Or.inl rfl)).1,
    (C2_missing_credentials envAll cfgBad s0 (Or.inl rfl)).2.1⟩

/-- C7: a CORS-probe run that receives an HTTP response yields success:false
with the literal numeric status in the message when the status is not ok, and
success:true when it is ok. -/
theorem C7_cors_http_status (env : ClientBehavior) (cfg : TestConfig) (status : Nat)
    (h : env.fetchConfig (AxraPayTester.corsRequest cfg) = .response status) :
    (responseOk status = false →
      (AxraPayTester.testCORS env cfg).success = false ∧
      strIncludes (AxraPayTester.testCORS env cfg).message (toString status) = true) ∧
    (responseOk status = true → (AxraPayTester.testCORS env cfg).success = true) := by
  refine ⟨fun hok => ?_, fun hok => ?_⟩
  · have hr : AxraPayTester.testCORS env cfg =
        { success := false
          message := "CORS test failed - HTTP error: " ++ toString status
          data := some (.dStatus status) } := by
      unfold AxraPayTester.testCORS
      rw [h]
      simp [hok]
    rw [hr]
    exact ⟨rfl, strIncludes_suffix _ _⟩
  · unfold AxraPayTester.testCORS
    rw [h]
    simp [hok]

/-- Witness for C7 at status 403. -/
theorem C7_cors_http_status_witness :
    responseOk 403 = false ∧
    (AxraPayTester.testCORS envForbidden cfgGood).success = false ∧
    strIncludes (AxraPayTester.testCORS envForbidden cfgGood).message (toString 403) = true :=
  ⟨rfl, (C7_cors_http_status envForbidden cfgGood 403 rfl).1 rfl⟩

/-- C10: every `initializeSDK` invocation that returns success:false leaves
`isSDKInitialized()` false, whatever the prior state was. -/
theorem C10_failed_init_revokes_readiness (env : ClientBehavior) (cfg : TestConfig)
    (s : TesterState)
    (h : (AxraPayTester.initializeSDK env cfg s).1.success = false) :
    AxraPayTester.isSDKInitialized (AxraPayTester.initializeSDK env cfg s).2.1 = false := by
  by_cases hc : (cfg.publishableKey = "" || cfg.businessId = "") = true
  · simp [AxraPayTester.initializeSDK, AxraPayTester.isSDKInitialized, hc]
  · have hc' : (cfg.publishableKey = "" || cfg.businessId = "") = false := by
      simpa using hc
    cases he : env.construct (normalizedConfig cfg) with
    | error e =>
        simp [AxraPayTester.initializeSDK, AxraPayTester.isSDKInitialized, hc', he]
    | ok u =>
        exfalso
        simp [AxraPayTester.initializeSDK, hc', he] at h

/-- Witness for C10: a failed re-initialization after a successful one. -/
theorem C10_failed_init_revokes_readiness_witness :
    AxraPayTester.isSDKInitialized sReady = true ∧
    (AxraPayTester.initializeSDK envAll cfgBad sReady).1.success = false ∧
    AxraPayTester.isSDKInitialized (AxraPayTester.initializeSDK envAll cfgBad sReady).2.1 = false :=
  ⟨rfl, rfl, C10_failed_init_revokes_readiness envAll cfgBad sReady rfl⟩

/-- The CORS-policy message form and the generic network-failure message form
never coincide, whatever the two embedded failure texts are: the two prefixes
already differ at index 16. -/
theorem corsMsg_ne_genericMsg (e1 e2 : String) :
    "CORS test failed - CORS error: " ++ e1 ≠ "CORS test failed: " ++ e2 := by
  intro hEq
  have hd : ("CORS test failed - CORS error: " ++ e1).data =
      ("CORS test failed: " ++ e2).data := congrArg String.data hEq
  rw [String.data_append, String.data_append] at hd
  have h16 : ("CORS test failed - CORS error: ".data ++ e1.data)[16]? =
      ("CORS test failed: ".data ++ e2.data)[16]? := by rw [hd]
  rw [List.getElem?_append_left (by decide), List.getElem?_append_left (by decide)] at h16
  exact absurd h16 (by decide)

/-- Counterexample for C5: the failure text "Cross-Origin request blocked"
contains "cross-origin" under case-insensitive comparison, yet `testCORS`
classifies it as a generic network failure, because the source's
`error.message.includes(...)` test is case-sensitive. -/
theorem C5_counterexample :
    ciIncludes "Cross-Origin request blocked" "cross-origin" = true ∧
    AxraPayTester.testCORS envBlocked cfgGood =
      { success := false
        message := "CORS test failed: Cross-Origin request blocked"
        data := some (.dError "Cross-Origin request blocked") } ∧
    AxraPayTester.testCORS envBlocked cfgGood ≠
      { success := false
        message := "CORS test failed - CORS error: Cross-Origin request blocked"
        data := some (.dError "Cross-Origin request blocked") } := by
  refine ⟨by decide, by decide, by decide⟩

/-- C5 as amended: a pre-response failure is classified by a case-sensitive
substring test — failure text containing "CORS" or "cross-origin" exactly is a
CORS-policy failure, any other text a generic network failure; both envelopes
are success:false and the two message forms are always distinguishable. -/
theorem C5_failure_classification (env : ClientBehavior) (cfg : TestConfig) (e : String)
    (h : env.fetchConfig (AxraPayTester.corsRequest cfg) = .failure e) :
    (AxraPayTester.testCORS env cfg).success = false ∧
    ((strIncludes e "CORS" || strIncludes e "cross-origin") = true →
      (AxraPayTester.testCORS env cfg).message = "CORS test failed - CORS error: " ++ e) ∧
    ((strIncludes e "CORS" || strIncludes e "cross-origin") = false →
      (AxraPayTester.testCORS env cfg).message = "CORS test failed: " ++ e) ∧
    (∀ e1 e2 : String,
      "CORS test failed - CORS error: " ++ e1 ≠ "CORS test failed: " ++ e2) := by
  by_cases hc : (strIncludes e "CORS" || strIncludes e "cross-origin") = true
  · have hr : AxraPayTester.testCORS env cfg =
        { success := false
          message := "CORS test failed - CORS error: " ++ e
          data := some (.dError e) } := by
      unfold AxraPayTester.testCORS
      rw [h]
      simp [hc]
    rw [hr]
    exact ⟨rfl, fun _ => rfl, fun hx => absurd hc (by simp [hx]), corsMsg_ne_genericMsg⟩
  · have hc' : (strIncludes e "CORS" || strIncludes e "cross-origin") = false := by
      simpa using hc
    have hr : AxraPayTester.testCORS env cfg =
        { success := false
          message := "CORS test failed: " ++ e
          data := some (.dError e) } := by
      unfold AxraPayTester.testCORS
      rw [h]
      simp [hc']
    rw [hr]
    exact ⟨rfl, fun hx => absurd hx (by simp [hc']), fun _ => rfl, corsMsg_ne_genericMsg⟩

/-- Witness for C5 as amended: a plain network failure text. -/
theorem C5_failure_classification_witness :
    (AxraPayTester.testCORS envErr cfgGood).success = false ∧
    (AxraPayTester.testCORS envErr cfgGood).message = "CORS test failed: " ++ "Failed to fetch" := by
  have hcl := C5_failure_classification envErr cfgGood "Failed to fetch" rfl
  exact ⟨hcl.1, hcl.2.2.1 (by decide)⟩

/-- C9: every probe resolves with a result envelope for every behaviour of the
underlying client; each underlying failure is recovered locally into a
success:false envelope that embeds the thrown message. -/
theorem C9_failures_recovered (env : ClientBehavior) (cfg : TestConfig)
    (cid : String) (surface : Surface) (s : TesterState) :
    ((cfg.publishableKey = "" || cfg.businessId = "") = true →
      (AxraPayTester.initializeSDK env cfg s).1.success = false) ∧
    (∀ e, env.construct (normalizedConfig cfg) = .error e →
      (cfg.publishableKey = "" || cfg.businessId = "") = false →
      (AxraPayTester.initializeSDK env cfg s).1.success = false ∧
      strIncludes (AxraPayTester.initializeSDK env cfg s).1.message e = true) ∧
    (∀ e, env.createPaymentIntent (AxraPayTester.intentParams cfg) = .error e →
      s.isInitialized = true → s.axraPay.isNone = false →
      (AxraPayTester.testPaymentIntent env cfg s).1.success = false ∧
      strIncludes (AxraPayTester.testPaymentIntent env cfg s).1.message e = true) ∧
    ((AxraPayTester.testCardForm env cfg cid none s).1.success = false) ∧
    (∀ e, env.mountCardForm (AxraPayTester.cardMountParams cfg cid) = .error e →
      s.isInitialized = true → s.axraPay.isNone = false →
      (AxraPayTester.testCardForm env cfg cid (some surface) s).1.success = false ∧
      strIncludes (AxraPayTester.testCardForm env cfg cid (some surface) s).1.message e = true) ∧
    ((AxraPayTester.testTokenForm env cfg cid none s).1.success = false) ∧
    (∀ e, env.mountTokenForm (AxraPayTester.tokenMountParams cid) = .error e →
      s.isInitialized = true → s.axraPay.isNone = false →
      (AxraPayTester.testTokenForm env cfg cid (some surface) s).1.success = false ∧
      strIncludes (AxraPayTester.testTokenForm env cfg cid (some surface) s).1.message e = true) ∧
    (∀ e, env.fetchConfig (AxraPayTester.corsRequest cfg) = .failure e →
      (AxraPayTester.testCORS env cfg).success = false ∧
      strIncludes (AxraPayTester.testCORS env cfg).message e = true) ∧
    (∀ status, env.fetchConfig (AxraPayTester.corsRequest cfg) = .response status →
      responseOk status = false → (AxraPayTester.testCORS env cfg).success = false) := by
  refine ⟨?_, ?_, ?_, ?_, ?_, ?_, ?_, ?_, ?_⟩
  · intro hc
    simp [AxraPayTester.initializeSDK, hc]
  · intro e he hc
    have hr : AxraPayTester.initializeSDK env cfg s =
        ({ success := false
           message := "SDK initialization failed: " ++ e
           data := some (.dError e) },
         { s with isInitialized := false },
         [.construct (normalizedConfig cfg)]) := by
      unfold AxraPayTester.initializeSDK
      rw [if_neg (by simp [hc]), he]
    rw [hr]
    exact ⟨rfl, strIncludes_suffix _ _⟩
  · intro e he hi hn
    have hr : AxraPayTester.testPaymentIntent env cfg s =
        ({ success := false
           message := "Payment intent creation failed: " ++ e
           data := some (.dError e) },
         s, [.createPaymentIntent (AxraPayTester.intentParams cfg)]) := by
      unfold AxraPayTester.testPaymentIntent
      rw [if_neg (by simp [hi, hn]), he]
    rw [hr]
    exact ⟨rfl, strIncludes_suffix _ _⟩
  · cases hg : (!s.isInitialized || s.axraPay.isNone) <;>
      simp [AxraPayTester.testCardForm, hg]
  · intro e he hi hn
    have hr : (AxraPayTester.testCardForm env cfg cid (some surface) s).1 =
        { success := false
          message := "Card form mounting failed: " ++ e
          data := some (.dError e) } := by
      unfold AxraPayTester.testCardForm
      rw [if_neg (by simp [hi, hn]), he]
    rw [hr]
    exact ⟨rfl, strIncludes_suffix _ _⟩
  · cases hg : (!s.isInitialized || s.axraPay.isNone) <;>
      simp [AxraPayTester.testTokenForm, hg]
  · intro e he hi hn
    have hr : (AxraPayTester.testTokenForm env cfg cid (some surface) s).1 =
        { success := false
          message := "Token form mounting failed: " ++ e
          data := some (.dError e) } := by
      unfold AxraPayTester.testTokenForm
      rw [if_neg (by simp [hi, hn]), he]
    rw [hr]
    exact ⟨rfl, strIncludes_suffix _ _⟩
  · intro e he
    by_cases hc : (strIncludes e "CORS" || strIncludes e "cross-origin") = true
    · have hr : AxraPayTester.testCORS env cfg =
          { success := false
            message := "CORS test failed - CORS error: " ++ e
            data := some (.dError e) } := by
        unfold AxraPayTester.testCORS
        rw [he]
        simp [hc]
      rw [hr]
      exact ⟨rfl, strIncludes_suffix _ _⟩
    · have hc' : (strIncludes e "CORS" || strIncludes e "cross-origin") = false := by
        simpa using hc
      have hr : AxraPayTester.testCORS env cfg =
          { success := false
            message := "CORS test failed: " ++ e
            data := some (.dError e) } := by
        unfold AxraPayTester.testCORS
        rw [he]
        simp [hc']
      rw [hr]
      exact ⟨rfl, strIncludes_suffix _ _⟩
  · intro status he hok
    have hr : AxraPayTester.testCORS env cfg =
        { success := false
          message := "CORS test failed - HTTP error: " ++ toString status
          data := some (.dStatus status) } := by
      unfold AxraPayTester.testCORS
      rw [he]
      simp [hok]
    rw [hr]

/-- Witness for C9: a behaviour where every underlying call throws, against a
ready tester state. -/
theorem C9_failures_recovered_witness :
    (AxraPayTester.testPaymentIntent envErr cfgGood sReady).1.success = false ∧
    strIncludes (AxraPayTester.testPaymentIntent envErr cfgGood sReady).1.message
      "intent blew up" = true ∧
    (AxraPayTester.testCardForm envErr cfgGood "cardFormContainer"
      (some .empty) sReady).1.success = false ∧
    (AxraPayTester.testCORS envErr cfgGood).success = false := by
  have h9 := C9_failures_recovered envErr cfgGood "cardFormContainer" .empty sReady
  refine ⟨(h9.2.2.1 "intent blew up" rfl rfl rfl).1,
    (h9.2.2.1 "intent blew up" rfl rfl rfl).2,
    (h9.2.2.2.2.1 "card mount blew up" rfl rfl rfl).1,
    (h9.2.2.2.2.2.2.2.1 "Failed to fetch" rfl).1⟩

/-- `testPaymentIntent` assigns no instance field. -/
theorem testPaymentIntent_state (env : ClientBehavior) (c : TestConfig) (s : TesterState) :
    (AxraPayTester.testPaymentIntent env c s).2.1 = s := by
  unfold AxraPayTester.testPaymentIntent
  split
  · rfl
  · split <;> rfl

/-- `testCardForm` assigns no instance field. -/
theorem testCardForm_state (env : ClientBehavior) (c : TestConfig) (cid : String)
    (cont : Option Surface) (s : TesterState) :
    (AxraPayTester.testCardForm env c cid cont s).2.1 = s := by
  unfold AxraPayTester.testCardForm
  split
  · rfl
  · split
    · rfl
    · split <;> rfl

/-- `testTokenForm` assigns no instance field. -/
theorem testTokenForm_state (env : ClientBehavior) (c : TestConfig) (cid : String)
    (cont : Option Surface) (s : TesterState) :
    (AxraPayTester.testTokenForm env c cid cont s).2.1 = s := by
  unfold AxraPayTester.testTokenForm
  split
  · rfl
  · split
    · rfl
    · split <;> rfl

/-- A step whose operation neither resets nor is a failing `initializeSDK`
keeps the tester ready. -/
theorem stepT_keepsReady (env : ClientBehavior) (s : TesterState) (op : Op)
    (hk : keepsReady env op = true) (hs : s.isInitialized = true) :
    (stepT env s op).isInitialized = true := by
  cases op with
  | initOp c =>
      have hini : initOk env c = true := hk
      have hand : (!(c.publishableKey = "" || c.businessId = "")) = true ∧
          (match env.construct (normalizedConfig c) with
           | .ok _ => true
           | .error _ => false) = true := by
        rw [initOk, Bool.and_eq_true] at hini
        exact hini
      have h1 : (c.publishableKey = "" || c.businessId = "") = false := by
        simpa using hand.1
      cases he : env.construct (normalizedConfig c) with
      | error e =>
          exfalso
          have h2 := hand.2
          rw [he] at h2
          simp at h2
      | ok u =>
          show (AxraPayTester.initializeSDK env c s).2.1.isInitialized = true
          simp [AxraPayTester.initializeSDK, h1, he]
  | paymentOp c =>
      show (AxraPayTester.testPaymentIntent env c s).2.1.isInitialized = true
      rw [testPaymentIntent_state]
      exact hs
  | cardOp c cid cont =>
      show (AxraPayTester.testCardForm env c cid cont s).2.1.isInitialized = true
      rw [testCardForm_state]
      exact hs
  | tokenOp c cid cont =>
      show (AxraPayTester.testTokenForm env c cid cont s).2.1.isInitialized = true
      rw [testTokenForm_state]
      exact hs
  | corsOp c => exact hs
  | resetOp => exact absurd hk (by simp [keepsReady])

/-- Counterexample for C6: after a successful `initializeSDK`, one later
`initializeSDK` call with an empty publishable key makes `isSDKInitialized()`
false although `reset()` was never called — readiness does not persist "until
reset() is called". -/
theorem C6_counterexample :
    (AxraPayTester.initializeSDK envAll cfgGood s0).1.success = true ∧
    AxraPayTester.isSDKInitialized (AxraPayTester.initializeSDK envAll cfgGood s0).2.1 = true ∧
    AxraPayTester.isSDKInitialized
      (runOps envAll (AxraPayTester.initializeSDK envAll cfgGood s0).2.1
        [.initOp cfgBad]) = false :=
  ⟨rfl, rfl, rfl⟩

/-- C6 as amended: after an `initializeSDK` invocation that returns
success:true, `isSDKInitialized()` is true; it stays true across any sequence
of operations that contains neither `reset()` nor a failing `initializeSDK`;
the spec-modelled `reset()` makes it false again and is idempotent. -/
theorem C6_ready_until_reset_or_failed_init (env : ClientBehavior) :
    (∀ cfg s, (AxraPayTester.initializeSDK env cfg s).1.success = true →
      AxraPayTester.isSDKInitialized (AxraPayTester.initializeSDK env cfg s).2.1 = true) ∧
    (∀ s ops, AxraPayTester.isSDKInitialized s = true →
      (∀ op ∈ ops, keepsReady env op = true) →
      AxraPayTester.isSDKInitialized (runOps env s ops) = true) ∧
    (∀ s, AxraPayTester.isSDKInitialized (AxraPayTester.reset s) = false) ∧
    (∀ s, AxraPayTester.reset (AxraPayTester.reset s) = AxraPayTester.reset s) := by
  refine ⟨?_, ?_, fun _ => rfl, fun _ => rfl⟩
  · intro cfg s hsuc
    by_cases hc : (cfg.publishableKey = "" || cfg.businessId = "") = true
    · exfalso
      simp [AxraPayTester.initializeSDK, hc] at hsuc
    · have hc' : (cfg.publishableKey = "" || cfg.businessId = "") = false := by
        simpa using hc
      cases he : env.construct (normalizedConfig cfg) with
      | error e =>
          exfalso
          simp [AxraPayTester.initializeSDK, hc', he] at hsuc
      | ok u =>
          simp [AxraPayTester.initializeSDK, AxraPayTester.isSDKInitialized, hc', he]
  · intro s ops hs hk
    induction ops generalizing s with
    | nil => exact hs
    | cons op rest ih =>
        have h1 : keepsReady env op = true := hk op (List.mem_cons_self _ _)
        have h2 : ∀ o ∈ rest, keepsReady env o = true :=
          fun o ho => hk o (List.mem_cons_of_mem _ ho)
        exact ih (stepT env s op) (stepT_keepsReady env s op h1 hs) h2

/-- Witness for C6 as amended: readiness survives a payment probe, a CORS
probe and a card mount, and reset() drops it. -/
theorem C6_ready_until_reset_or_failed_init_witness :
    AxraPayTester.isSDKInitialized
      (runOps envAll sReady
        [.paymentOp cfgGood, .corsOp cfgGood,
         .cardOp cfgGood "cardFormContainer" (some .empty)]) = true ∧
    AxraPayTester.isSDKInitialized (AxraPayTester.reset sReady) = false := by
  have h6 := C6_ready_until_reset_or_failed_init envAll
  exact ⟨h6.2.1 sReady _ rfl (by decide), h6.2.2.1 sReady⟩

/-- C8: delivering a widget interaction outcome after the target surface was
cleared is ignored completely — the app state is unchanged: no outcome panel,
no second envelope, no log entry. -/
theorem C8_cleared_surface_ignores_outcome (st : AppState) (o : CardOutcome)
    (ot : TokenOutcome) (hc : st.cardSurface = .empty) (ht : st.tokenSurface = .empty) :
    App.deliverCardOutcome o st = st ∧ App.deliverTokenOutcome ot st = st := by
  constructor
  · show { st with cardSurface := deliverCardOutcome o st.cardSurface } = st
    rw [hc]
    have hz : deliverCardOutcome o .empty = Surface.empty := by
      cases o <;> rfl
    rw [hz, ← hc]
  · show { st with tokenSurface := deliverTokenOutcome ot st.tokenSurface } = st
    rw [ht]
    have hz : deliverTokenOutcome ot .empty = Surface.empty := by
      cases ot <;> rfl
    rw [hz, ← ht]

/-- Witness for C8 on a cleared app state. -/
theorem C8_cleared_surface_ignores_outcome_witness :
    appCleared.cardSurface = .empty ∧
    App.deliverCardOutcome (.onSuccess { id := "pay_42" }) appCleared = appCleared :=
  ⟨rfl, (C8_cleared_surface_ignores_outcome appCleared
    (.onSuccess { id := "pay_42" }) .onCancel rfl rfl).1⟩

/-- Counterexample for C3: firing `onSuccess` on a mounted card surface
renders the outcome panel but appends no LogBus entry and stores no second
envelope — logs and result slots are unchanged, where the claim requires a
success-severity log entry and a second ResultEnvelope. -/
theorem C3_counterexample :
    (App.deliverCardOutcome (.onSuccess { id := "pay_42" }) appMounted).logs =
      appMounted.logs ∧
    (App.deliverCardOutcome (.onSuccess { id := "pay_42" }) appMounted).results =
      appMounted.results ∧
    (App.deliverCardOutcome (.onSuccess { id := "pay_42" }) appMounted).cardSurface =
      .template none (.shown
        { sev := .success
          message := "✅ Payment successful! ID: pay_42"
          shownData := some (.dPay { id := "pay_42" }) }) :=
  ⟨rfl, rfl, by decide⟩

/-- C3 as amended: when a mounted widget's interaction callback fires while
the target surface still holds the template, it renders an outcome record on
that surface — `onSuccess` with severity success, a message containing the
result identifier and the result data attached; `onError` with severity error
and a message containing the error text; `onCancel` with severity error and a
message containing "cancelled" — but it appends no LogBus entry and produces
no second ResultEnvelope in the app's result slots. -/
theorem C3_outcome_rendered_not_logged (st : AppState) (r : PayResult) (rt : TokResult)
    (e : String) (ff fft : Option String) (p pt : PanelState)
    (hc : st.cardSurface = .template ff p) (ht : st.tokenSurface = .template fft pt) :
    ((App.deliverCardOutcome (.onSuccess r) st).cardSurface =
        .template ff (.shown
          { sev := .success
            message := "✅ Payment successful! ID: " ++ r.id
            shownData := some (.dPay r) }) ∧
      strIncludes ("✅ Payment successful! ID: " ++ r.id) r.id = true) ∧
    ((App.deliverCardOutcome (.onError e) st).cardSurface =
        .template ff (.shown
          { sev := .error
            message := "❌ Payment failed: " ++ e
            shownData := none }) ∧
      strIncludes ("❌ Payment failed: " ++ e) e = true) ∧
    ((App.deliverCardOutcome .onCancel st).cardSurface =
        .template ff (.shown
          { sev := .error
            message := "⚠️ Payment cancelled by user"
            shownData := none }) ∧
      strIncludes "⚠️ Payment cancelled by user" "cancelled" = true) ∧
    (∀ o : CardOutcome,
      (App.deliverCardOutcome o st).logs = st.logs ∧
      (App.deliverCardOutcome o st).results = st.results) ∧
    ((App.deliverTokenOutcome (.onSuccess rt) st).tokenSurface =
        .template fft (.shown
          { sev := .success
            message := "✅ Token created successfully! ID: " ++ rt.tokenId
            shownData := some (.dTok rt) }) ∧
      strIncludes ("✅ Token created successfully! ID: " ++ rt.tokenId) rt.tokenId = true) ∧
    ((App.deliverTokenOutcome (.onError e) st).tokenSurface =
        .template fft (.shown
          { sev := .error
            message := "❌ Token creation failed: " ++ e
            shownData := none }) ∧
      strIncludes ("❌ Token creation failed: " ++ e) e = true) ∧
    ((App.deliverTokenOutcome .onCancel st).tokenSurface =
        .template fft (.shown
          { sev := .error
            message := "⚠️ Token creation cancelled by user"
            shownData := none }) ∧
      strIncludes "⚠️ Token creation cancelled by user" "cancelled" = true) ∧
    (∀ o : TokenOutcome,
      (App.deliverTokenOutcome o st).logs = st.logs ∧
      (App.deliverTokenOutcome o st).results = st.results) := by
  refine ⟨⟨?_, strIncludes_suffix _ _⟩, ⟨?_, strIncludes_suffix _ _⟩,
    ⟨?_, by decide⟩, fun o => ⟨rfl, rfl⟩,
    ⟨?_, strIncludes_suffix _ _⟩, ⟨?_, strIncludes_suffix _ _⟩,
    ⟨?_, by decide⟩, fun o => ⟨rfl, rfl⟩⟩ <;>
    simp [App.deliverCardOutcome, App.deliverTokenOutcome, deliverCardOutcome,
      deliverTokenOutcome, AxraPayTester.showCardFormResult,
      AxraPayTester.showTokenFormResult, hc, ht]

/-- Witness for C3 as amended, on the mounted fixture. -/
theorem C3_outcome_rendered_not_logged_witness :
    (App.deliverCardOutcome .onCancel appMounted).cardSurface =
      .template none (.shown
        { sev := .error
          message := "⚠️ Payment cancelled by user"
          shownData := none }) ∧
    (App.deliverCardOutcome .onCancel appMounted).logs = appMounted.logs := by
  have h3 := C3_outcome_rendered_not_logged appMounted
    { id := "pay_42" } { tokenId := "tok_42" } "declined" none none .blank .blank rfl rfl
  exact ⟨h3.2.2.1.1, (h3.2.2.2.1 .onCancel).1⟩

/-- Counterexample for C4: (a) a successful `testSDKInitialization` run logs
"SDK initialized successfully!" while the envelope it stored says
"SDK initialized successfully! Business config loaded." — the resolved log
entry's message is not the envelope's message; (b) a gated `testPaymentIntent`
invocation appends no log entry at all, neither an info one at start nor a
resolved one. -/
theorem C4_counterexample :
    (App.testSDKInitialization envAll "12:00:00.000" cfgGood app0).logs =
      [{ timestamp := "12:00:00.000"
         message := "Starting SDK initialization test..."
         type := .info },
       { timestamp := "12:00:00.000"
         message := "SDK initialized successfully!"
         type := .success }] ∧
    (App.testSDKInitialization envAll "12:00:00.000" cfgGood app0).results.init =
      some { success := true
             message := "SDK initialized successfully! Business config loaded."
             data := some .dInitialized } ∧
    ("SDK initialized successfully!" : String) ≠
      "SDK initialized successfully! Business config loaded." ∧
    (App.testPaymentIntent envAll "12:00:01.000" cfgGood app0).logs = [] :=
  ⟨by decide, by decide, by decide, by decide⟩

/-- C4 as amended: an invocation of `testSDKInitialization`, and of
`testPaymentIntent` whenever the SDK is initialized, appends exactly one info
entry when it starts and exactly one resolved entry whose severity matches the
envelope's success flag; the resolved entry's message embeds the envelope's
message behind a probe-specific prefix on failure and is a separate summary
message on success — it does not in general equal the envelope's message.  A
gated `testPaymentIntent` invocation stores the gate envelope and appends no
log entry. -/
theorem C4_log_discipline (env : ClientBehavior) (now : String) (cfg : TestConfig)
    (st : AppState) :
    ((App.testSDKInitialization env now cfg st).logs =
      st.logs ++
        [{ timestamp := now
           message := "Starting SDK initialization test..."
           type := .info },
         if (AxraPayTester.initializeSDK env cfg st.tester).1.success then
           { timestamp := now
             message := "SDK initialized successfully!"
             type := .success }
         else
           { timestamp := now
             message := "SDK initialization failed: " ++
               (AxraPayTester.initializeSDK env cfg st.tester).1.message
             type := .error }]) ∧
    (AxraPayTester.isSDKInitialized st.tester = false →
      (App.testPaymentIntent env now cfg st).logs = st.logs ∧
      (App.testPaymentIntent env now cfg st).results.payment =
        some { success := false, message := "Please initialize the SDK first" }) ∧
    (AxraPayTester.isSDKInitialized st.tester = true →
      (App.testPaymentIntent env now cfg st).logs =
        st.logs ++
          [{ timestamp := now
             message := "Testing payment intent creation..."
             type := .info },
           if (AxraPayTester.testPaymentIntent env cfg st.tester).1.success then
             { timestamp := now
               message := "Payment intent created: " ++
                 App.dataIdStr (AxraPayTester.testPaymentIntent env cfg st.tester).1.data
               type := .success }
           else
             { timestamp := now
               message := "Payment intent creation failed: " ++
                 (AxraPayTester.testPaymentIntent env cfg st.tester).1.message
               type := .error }]) := by
  refine ⟨?_, fun hg => ?_, fun hg => ?_⟩
  · by_cases hs : (AxraPayTester.initializeSDK env cfg st.tester).1.success = true
    · simp [App.testSDKInitialization, App.addLog, hs]
    · have hs' : (AxraPayTester.initializeSDK env cfg st.tester).1.success = false := by
        simpa using hs
      simp [App.testSDKInitialization, App.addLog, hs']
  · have hg' : st.tester.isInitialized = false := hg
    constructor <;>
      simp [App.testPaymentIntent, AxraPayTester.isSDKInitialized, hg']
  · have hg' : st.tester.isInitialized = true := hg
    by_cases hs : (AxraPayTester.testPaymentIntent env cfg st.tester).1.success = true
    · simp [App.testPaymentIntent, App.addLog, AxraPayTester.isSDKInitialized, hg', hs]
    · have hs' : (AxraPayTester.testPaymentIntent env cfg st.tester).1.success = false := by
        simpa using hs
      simp [App.testPaymentIntent, App.addLog, AxraPayTester.isSDKInitialized, hg', hs']

/-- Witness for C4 as amended: a failing initialization doubles the failure
prefix in the log, a gated payment invocation logs nothing, an ungated one
logs its start and its resolution. -/
theorem C4_log_discipline_witness :
    (App.testSDKInitialization envErr "t0" cfgGood app0).logs =
      [{ timestamp := "t0"
         message := "Starting SDK initialization test..."
         type := .info },
       { timestamp := "t0"
         message := "SDK initialization failed: SDK initialization failed: construct blew up"
         type := .error }] ∧
    (App.testPaymentIntent envAll "t1" cfgGood app0).logs = [] ∧
    (App.testPaymentIntent envAll "t2" cfgGood appCleared).logs =
      [{ timestamp := "t2"
         message := "Testing payment intent creation..."
         type := .info },
       { timestamp := "t2"
         message := "Payment intent created: pi_demo_1"
         type := .success }] := by
  refine ⟨?_, ((C4_log_discipline envAll "t1" cfgGood app0).2.1 rfl).1, ?_⟩
  · have h := (C4_log_discipline envErr "t0" cfgGood app0).1
    rw [h]
    decide
  · have h := (C4_log_discipline envAll "t2" cfgGood appCleared).2.2 rfl
    rw [h]
    decide

end Axrapay
